import Mathlib

/-!
Verification of the deterministic dialogue-orchestration core of a sales
call agent.  The development shallowly embeds:

* `agent/date_parser.py`  — `parse_sales_date` and its pattern handlers
  (`_parse_tomorrow`, `_parse_day_of_week`, `_get_days_ahead`, ...);
* `agent/planner.py`      — `extract_datetime`, `suggest_specific_time_from_slot`,
  `decide_next_action`;
* `agent/path_nodes.py`   — `schedule_path_node`, `send_info_path_node`,
  `not_interested_node`, `provide_info_node`, `provide_more_info_node`,
  `answer_question_node`, `close_out_node`;
* `agent/response_node.py`— `bridge_and_nudge_node`;
* `agent/graph.py`        — the phase-keyed routing table and
  `run_conversation_turn`.

External collaborators (the LLM intent classifier, the tone detector, the
reply generator, the `dateparser` library fallback, and the Google-calendar
client) are modelled as oracle parameters bundled in `Collab`, exactly at the
call boundaries where the source invokes them.  Tool invocations issued by a
node are made observable by returning an explicit log of calendar calls next
to the updated state.

Python `datetime` values are modelled by `PyDateTime` (days since an epoch
Monday, plus hour and minute); `replace(hour=..., minute=...)` is fallible,
returning `none` exactly when Python would raise `ValueError`.  Python
truthiness of slot values is modelled by the `optStrTruthy` /
`optBoolTruthy` / `optDTTruthy` helpers.  Regex scanning is embedded at
character level for the exact-time pattern of `extract_datetime` and at
word level (whitespace-tokenised, matching the canonical slot vocabulary)
for the keyword patterns of `parse_sales_date`.
-/

/-! ### Python datetime model -/

structure PyDateTime where
  day : Nat
  hour : Nat
  minute : Nat
deriving DecidableEq

def PyDateTime.addDays (dt : PyDateTime) (k : Nat) : PyDateTime :=
  { dt with day := dt.day + k }

def PyDateTime.toMinutes (dt : PyDateTime) : Nat :=
  (dt.day * 24 + dt.hour) * 60 + dt.minute

/-- Python `weekday()`: Monday is 0.  The epoch (day 0) is a Monday. -/
def pyWeekday (dt : PyDateTime) : Nat := dt.day % 7

/-- Monday-based calendar-week index of a date. -/
def weekIndexOf (dt : PyDateTime) : Nat := dt.day / 7

/-- `dt.replace(hour=h, minute=m, second=0, microsecond=0)`; `none` models the
`ValueError` Python raises for an out-of-range field. -/
def pyReplaceHM (dt : PyDateTime) (h m : Nat) : Option PyDateTime :=
  if h ≤ 23 ∧ m ≤ 59 then some { dt with hour := h, minute := m } else none

/-- `dt.replace(hour=h)`; `none` models the `ValueError` for `h > 23`. -/
def pyReplaceHour (dt : PyDateTime) (h : Nat) : Option PyDateTime :=
  if h ≤ 23 then some { dt with hour := h } else none

/-! ### String helpers (Python `str.lower`, substring `in`, `split`) -/

def lowerStr (s : String) : String := String.mk (s.data.map Char.toLower)

def listPrefixOf : List Char → List Char → Bool
  | [], _ => true
  | _ :: _, [] => false
  | a :: as, b :: bs => a == b && listPrefixOf as bs

def listContainsSeq (needle : List Char) : List Char → Bool
  | [] => listPrefixOf needle []
  | c :: cs => listPrefixOf needle (c :: cs) || listContainsSeq needle cs

/-- Python `needle in hay` on strings. -/
def pyIn (needle hay : String) : Bool := listContainsSeq needle.toList hay.toList

def wordsAux : List Char → List Char → List String
  | [], cur => if cur.isEmpty then [] else [String.mk cur.reverse]
  | c :: cs, cur =>
    if c = ' ' then
      if cur.isEmpty then wordsAux cs []
      else String.mk cur.reverse :: wordsAux cs []
    else wordsAux cs (c :: cur)

/-- Whitespace tokenisation of a phrase (empty tokens dropped). -/
def splitWords (s : String) : List String := wordsAux s.data []

/-! ### Character-level scan for the exact-time regex of `extract_datetime`:
`\b(\d{1,2}):?(\d{2})?\s*(pm|am)\b`, with `re.search` leftmost semantics and
greedy backtracking. -/

def isWordChar (c : Char) : Bool := c.isAlphanum || c = '_'

def isSpaceChar (c : Char) : Bool := c = ' ' || c = '\t' || c = '\n'

def skipSpaces : List Char → List Char
  | c :: cs => if isSpaceChar c then skipSpaces cs else c :: cs
  | [] => []

def wordBoundaryAfter : List Char → Bool
  | [] => true
  | c :: _ => !isWordChar c

/-- Match `(pm|am)\b` at the head. -/
def matchAmPm : List Char → Option String
  | 'p' :: 'm' :: rest => if wordBoundaryAfter rest then some "pm" else none
  | 'a' :: 'm' :: rest => if wordBoundaryAfter rest then some "am" else none
  | _ => none

def ampmAfterSpaces (cs : List Char) : Option String := matchAmPm (skipSpaces cs)

/-- Match `:?(\d{2})?\s*(pm|am)\b` at the head, trying alternatives in the
regex engine's greedy order; returns the optional minute digits and the
am/pm text. -/
def timeTail (cs : List Char) : Option (Option (Char × Char) × String) :=
  (match cs with
   | ':' :: d1 :: d2 :: rest =>
     if d1.isDigit && d2.isDigit then
       (ampmAfterSpaces rest).map (fun ap => (some (d1, d2), ap))
     else none
   | _ => none)
  |>.orElse (fun _ =>
    match cs with
    | ':' :: rest => (ampmAfterSpaces rest).map (fun ap => (none, ap))
    | _ => none)
  |>.orElse (fun _ =>
    match cs with
    | d1 :: d2 :: rest =>
      if d1.isDigit && d2.isDigit then
        (ampmAfterSpaces rest).map (fun ap => (some (d1, d2), ap))
      else none
    | _ => none)
  |>.orElse (fun _ => (ampmAfterSpaces cs).map (fun ap => ((none : Option (Char × Char)), ap)))

/-- Reconstruction of `time_text` exactly as `extract_datetime` does:
`f"{hour}:{minute}{ampm}"` when minutes matched, else `f"{hour}{ampm}"`. -/
def renderTimeText (hourChars : List Char) (tail : Option (Char × Char) × String) : String :=
  match tail with
  | (some (m1, m2), ap) => String.mk hourChars ++ ":" ++ String.mk [m1, m2] ++ ap
  | (none, ap) => String.mk hourChars ++ ap

/-- Try the whole time pattern at the current position (`prevOk` says the
word boundary before the digits holds). -/
def matchTimeAt (prevOk : Bool) (cs : List Char) : Option String :=
  if !prevOk then none else
  match cs with
  | d1 :: rest1 =>
    if d1.isDigit then
      (match rest1 with
       | d2 :: rest2 =>
         if d2.isDigit then (timeTail rest2).map (renderTimeText [d1, d2]) else none
       | [] => none)
      |>.orElse (fun _ => (timeTail rest1).map (renderTimeText [d1]))
    else none
  | [] => none

def searchTimeFrom : Bool → List Char → Option String
  | _, [] => none
  | prevOk, c :: cs =>
    match matchTimeAt prevOk (c :: cs) with
    | some t => some t
    | none => searchTimeFrom (!isWordChar c) cs

/-- `re.search(r'\b(\d{1,2}):?(\d{2})?\s*(pm|am)\b', user_lower)`, returning
the reconstructed `time_text`. -/
def findTimeTok (s : String) : Option String := searchTimeFrom true s.toList

/-! ### `agent/date_parser.py` — word-level embedding of `parse_sales_date`

The seven hand-written regex patterns of `parse_sales_date` are embedded
over the whitespace-tokenised, lowercased text.  Each matcher scans for the
leftmost position whose suffix fits the pattern (`re.search` semantics); a
handler that returns `none` (Python: returns `None` or raises) lets the
scan continue with the next pattern, exactly as the source's
`try/except/continue` loop does.  The `dateparser` library fallback is an
oracle parameter. -/

/-- Hour, minute, and am/pm flag (`some true` = pm) matched by the optional
time groups `(\d{1,2}):?(\d{2})?\s*(am|pm)?` of the date patterns. -/
abbrev TimeSpec := Nat × Nat × Option Bool

def charDigit (c : Char) : Nat := c.toNat - '0'.toNat

def timeCharsTail : Nat → List Char → Option TimeSpec
  | h, [] => some (h, 0, none)
  | h, ':' :: m1 :: m2 :: rest =>
    if m1.isDigit && m2.isDigit then
      match rest with
      | [] => some (h, charDigit m1 * 10 + charDigit m2, none)
      | ['p', 'm'] => some (h, charDigit m1 * 10 + charDigit m2, some true)
      | ['a', 'm'] => some (h, charDigit m1 * 10 + charDigit m2, some false)
      | _ => none
    else none
  | h, ['p', 'm'] => some (h, 0, some true)
  | h, ['a', 'm'] => some (h, 0, some false)
  | _, _ => none

/-- Parse one token of the canonical time vocabulary
(`H`, `HH`, `H:MM`, `Hpm`, `H:MMam`, ...). -/
def parseTimeChars : List Char → Option TimeSpec
  | d1 :: rest =>
    if d1.isDigit then
      match rest with
      | d2 :: rest2 =>
        if d2.isDigit then timeCharsTail (charDigit d1 * 10 + charDigit d2) rest2
        else timeCharsTail (charDigit d1) rest
      | [] => some (charDigit d1, 0, none)
    else none
  | [] => none

/-- The optional time groups, read from the following tokens; an `am`/`pm`
may sit in the same token or in the next one (the regex permits `\s*`
between digits and the meridiem). -/
def timeFromWords : List String → Option TimeSpec
  | [] => none
  | w :: ws =>
    match parseTimeChars w.toList with
    | some (h, m, some ap) => some (h, m, some ap)
    | some (h, m, none) =>
      match ws with
      | "pm" :: _ => some (h, m, some true)
      | "am" :: _ => some (h, m, some false)
      | _ => some (h, m, none)
    | none => none

/-- The `(?:at\s*)?` group followed by the time groups. -/
def timeAfterAt : List String → Option TimeSpec
  | "at" :: ws => timeFromWords ws
  | ws => timeFromWords ws

def weekday_index : String → Option Nat
  | "monday" => some 0
  | "tuesday" => some 1
  | "wednesday" => some 2
  | "thursday" => some 3
  | "friday" => some 4
  | "saturday" => some 5
  | "sunday" => some 6
  | _ => none

def periodHour : String → Option Nat
  | "morning" => some 9
  | "afternoon" => some 14
  | "evening" => some 18
  | _ => none

/-- Leftmost scan: try `f` on every suffix, earliest success wins. -/
def searchMap (f : String → List String → Option α) : List String → Option α
  | [] => none
  | w :: ws =>
    match f w ws with
    | some r => some r
    | none => searchMap f ws

/-- `tomorrow\s*(?:at\s*)?(\d{1,2}):?(\d{2})?\s*(am|pm)?` — matches whenever
`tomorrow` occurs, the time groups being optional. -/
def matchTomorrowTime : List String → Option (Option TimeSpec) :=
  searchMap (fun w ws => if w = "tomorrow" then some (timeAfterAt ws) else none)

/-- `tomorrow\s*(morning|afternoon|evening)`. -/
def matchTomorrowPeriod : List String → Option Nat :=
  searchMap (fun w ws =>
    if w = "tomorrow" then
      match ws with
      | p :: _ => periodHour p
      | [] => none
    else none)

/-- `next\s+week\s+(monday|...)\s*(?:at\s*)?...`. -/
def matchNextWeekDay : List String → Option (Nat × Option TimeSpec) :=
  searchMap (fun w ws =>
    if w = "next" then
      match ws with
      | w2 :: w3 :: ws' =>
        if w2 = "week" then (weekday_index w3).map (fun d => (d, timeAfterAt ws')) else none
      | _ => none
    else none)

/-- `next\s+(monday|...)\s*(?:at\s*)?...`. -/
def matchNextDay : List String → Option (Nat × Option TimeSpec) :=
  searchMap (fun w ws =>
    if w = "next" then
      match ws with
      | w2 :: ws' => (weekday_index w2).map (fun d => (d, timeAfterAt ws'))
      | [] => none
    else none)

/-- `this\s+(monday|...)\s*(?:at\s*)?...`. -/
def matchThisDay : List String → Option (Nat × Option TimeSpec) :=
  searchMap (fun w ws =>
    if w = "this" then
      match ws with
      | w2 :: ws' => (weekday_index w2).map (fun d => (d, timeAfterAt ws'))
      | [] => none
    else none)

/-- `(monday|...)\s*(?:at\s*)?(\d{1,2}):?(\d{2})?\s*(am|pm)?`. -/
def matchDayTime : List String → Option (Nat × Option TimeSpec) :=
  searchMap (fun w ws => (weekday_index w).map (fun d => (d, timeAfterAt ws)))

/-- `(monday|...)\s*(morning|afternoon|evening)`. -/
def matchDayPeriod : List String → Option (Nat × Nat) :=
  searchMap (fun w ws =>
    (weekday_index w).bind (fun d =>
      match ws with
      | p :: _ => (periodHour p).map (fun h => (d, h))
      | [] => none))

/-- The shared 12-hour conversion of every handler:
`if ampm == 'pm' and hour != 12: hour += 12 elif ampm == 'am' and hour == 12:
hour = 0`, applied only when the am/pm group matched. -/
def convert12 (hour : Nat) (ampm : Option Bool) : Nat :=
  match ampm with
  | some true => if hour ≠ 12 then hour + 12 else hour
  | some false => if hour = 12 then 0 else hour
  | none => hour

/-- Hour/minute defaults of every handler: 9:00 unless the hour group
matched. -/
def specHourMinute (t : Option TimeSpec) : Nat × Nat :=
  match t with
  | some (h, m, ap) => (convert12 h ap, m)
  | none => (9, 0)

/-- `_get_days_ahead`. -/
def get_days_ahead (target current : Nat) : Nat :=
  (if (target : Int) - current ≤ 0 then (target : Int) - current + 7
   else (target : Int) - current).toNat

/-- `_parse_tomorrow`. -/
def parse_tomorrow (t : Option TimeSpec) (now : PyDateTime) : Option PyDateTime :=
  let hm := specHourMinute t
  pyReplaceHM (now.addDays 1) hm.1 hm.2

/-- `_parse_tomorrow_period` (the period hour is resolved by the matcher). -/
def parse_tomorrow_period (h : Nat) (now : PyDateTime) : Option PyDateTime :=
  pyReplaceHM (now.addDays 1) h 0

/-- `_parse_next_week_day`: nearest occurrence, then always one more week. -/
def parse_next_week_day (d : Nat) (t : Option TimeSpec) (now : PyDateTime) : Option PyDateTime :=
  let hm := specHourMinute t
  let target := (now.addDays (get_days_ahead d (pyWeekday now))).addDays 7
  pyReplaceHM target hm.1 hm.2

/-- `_parse_next_day`: nearest occurrence, no extra adjustment. -/
def parse_next_day (d : Nat) (t : Option TimeSpec) (now : PyDateTime) : Option PyDateTime :=
  let hm := specHourMinute t
  let target := now.addDays (get_days_ahead d (pyWeekday now))
  pyReplaceHM target hm.1 hm.2

/-- `_parse_this_week_day`: nearest occurrence; roll a week if not future. -/
def parse_this_week_day (d : Nat) (t : Option TimeSpec) (now : PyDateTime) : Option PyDateTime :=
  let hm := specHourMinute t
  let target := now.addDays (get_days_ahead d (pyWeekday now))
  let target := if target.toMinutes ≤ now.toMinutes then target.addDays 7 else target
  pyReplaceHM target hm.1 hm.2

/-- `_parse_day_of_week`: closest upcoming occurrence; roll a week if not
future. -/
def parse_day_of_week (d : Nat) (t : Option TimeSpec) (now : PyDateTime) : Option PyDateTime :=
  let hm := specHourMinute t
  let target := now.addDays (get_days_ahead d (pyWeekday now))
  let target := if target.toMinutes ≤ now.toMinutes then target.addDays 7 else target
  pyReplaceHM target hm.1 hm.2

/-- `_parse_day_period` (the period hour is resolved by the matcher). -/
def parse_day_period (d : Nat) (h : Nat) (now : PyDateTime) : Option PyDateTime :=
  let target := now.addDays (get_days_ahead d (pyWeekday now))
  let target := if target.toMinutes ≤ now.toMinutes then target.addDays 7 else target
  pyReplaceHM target h 0

/-- `parse_sales_date`: patterns in source order; a matched pattern whose
handler yields `none` falls through to the next pattern; finally the
`dateparser` oracle `fb` is consulted on the original text. -/
def parse_sales_date (fb : String → PyDateTime → Option PyDateTime)
    (now : PyDateTime) (text : String) : Option PyDateTime :=
  let ws := splitWords (lowerStr text)
  (match matchTomorrowTime ws with
   | some t => parse_tomorrow t now
   | none => none)
  |>.orElse (fun _ =>
    match matchTomorrowPeriod ws with
    | some h => parse_tomorrow_period h now
    | none => none)
  |>.orElse (fun _ =>
    match matchNextWeekDay ws with
    | some (d, t) => parse_next_week_day d t now
    | none => none)
  |>.orElse (fun _ =>
    match matchNextDay ws with
    | some (d, t) => parse_next_day d t now
    | none => none)
  |>.orElse (fun _ =>
    match matchThisDay ws with
    | some (d, t) => parse_this_week_day d t now
    | none => none)
  |>.orElse (fun _ =>
    match matchDayTime ws with
    | some (d, t) => parse_day_of_week d t now
    | none => none)
  |>.orElse (fun _ =>
    match matchDayPeriod ws with
    | some (d, h) => parse_day_period d h now
    | none => none)
  |>.orElse (fun _ => fb text now)

/-! ### `agent/state.py` — `Lead` and `ConversationState` -/

structure Lead where
  id : String := ""
  name : String
  phone : String
  email : Option String := none
  company : Option String := none
deriving DecidableEq

/-- The `state.slots` string-keyed bag, as the typed record of the keys the
core reads or writes; `none` models an absent key. -/
structure Slots where
  date_slot : Option String := none
  time_slot : Option String := none
  datetime : Option PyDateTime := none
  suggested_time : Option String := none
  channel_pref : Option String := none
  confirmation : Option Bool := none
  questions_asked : Option Nat := none
  info_provided : Option Bool := none
  more_info_provided : Option Bool := none
  info_sent : Option Bool := none
  suggest_meeting_after_answer : Option Bool := none
  meeting_type : Option String := none
deriving DecidableEq

/-- Python truthiness of `slots.get(key)` for a string-valued key: absent or
empty is falsy. -/
def optStrTruthy : Option String → Bool
  | none => false
  | some s => !(s = "")

/-- Python truthiness for a bool-valued key: absent or `False` is falsy. -/
def optBoolTruthy : Option Bool → Bool
  | none => false
  | some b => b

/-- Python truthiness for a datetime-valued key: `datetime` objects are
always truthy. -/
def optDTTruthy : Option PyDateTime → Bool
  | none => false
  | some _ => true

/-- One record of `state.conversation_history`. -/
structure TurnRecord where
  user : String
  agent : String
  intent : Option String
  tone : Option String
  tone_confidence : Option ℚ
  turn : Nat
  phase : String
deriving DecidableEq

structure ConversationState where
  session_id : String := ""
  phase : String := "intro"
  intent : Option String := none
  tone : Option String := none
  tone_confidence : Option ℚ := none
  lead : Lead
  conversation_history : List TurnRecord := []
  slots : Slots := {}
  done : Bool := false
  last_agent_reply : Option String := none
  current_user_utterance : Option String := none
deriving DecidableEq

/-! ### External collaborators (capability interfaces of spec section 6) -/

/-- One `calendar.create_event` invocation, as recorded in the tool log. -/
structure CalCall where
  summary : String
  description : String
  start_dt : PyDateTime
  end_dt : PyDateTime
  attendees : List (String × String)
deriving DecidableEq

/-- Outcome of a `calendar.create_event` call: a created event, a reported
failure (`created=False` with an error), or a raised exception. -/
inductive CalOutcome where
  | created (id : String)
  | failed (err : String)
  | raised
deriving DecidableEq

/-- The external collaborators consumed by the core: intent classifier, tone
detector, reply generator (LLM-backed), the `dateparser` library, and the
calendar client. -/
structure Collab where
  classifyIntent : String → String × ℚ
  detectTone : String → String × ℚ
  genReply : ConversationState → String → String → String
  calendar : CalCall → CalOutcome
  dateparserFallback : String → PyDateTime → Option PyDateTime

/-! ### `agent/planner.py` -/

/-- `suggest_specific_time_from_slot` (display capitalisation of the day
name abstracted by `capitalizeWord`). -/
def capitalizeWord (s : String) : String :=
  match s.toList with
  | [] => ""
  | c :: cs => String.mk (c.toUpper :: cs.map Char.toLower)

def weekday_names : List String :=
  ["monday", "tuesday", "wednesday", "thursday", "friday", "saturday", "sunday"]

def suggest_specific_time_from_slot (date_slot : String) : String :=
  let dl := lowerStr date_slot
  if dl = "today" then "later today at 4pm"
  else if dl = "tomorrow" then "tomorrow at 2pm"
  else if pyIn "next week" dl then "next Tuesday at 2pm"
  else if dl ∈ weekday_names then capitalizeWord date_slot ++ " at 2pm"
  else "tomorrow at 2pm"

def core_date_keywords : List String :=
  ["today", "tomorrow", "monday", "tuesday", "wednesday", "thursday",
   "friday", "saturday", "sunday"]

/-- Step 1 of `extract_datetime`: the exact-time regex scan filling
`time_slot`. -/
def applyTimeSlot (ul : String) (sl : Slots) : Slots :=
  match findTimeTok ul with
  | some t => { sl with time_slot := some t }
  | none => sl

/-- Steps 2-3 of `extract_datetime`: the core date keyword loop, then the
`next week` / `this week` checks.  (The vague-period scan of the source only
prints and changes no slot.) -/
def applyDateSlot (ul : String) (sl : Slots) : Slots :=
  match core_date_keywords.find? (fun k => pyIn k ul) with
  | some k => { sl with date_slot := some k }
  | none =>
    if pyIn "next week" ul then { sl with date_slot := some "next week" }
    else if pyIn "this week" ul then { sl with date_slot := some "this week" }
    else sl

/-- The suggestion step of `extract_datetime`: a `date_slot` without
`time_slot` or `datetime` seeds `suggested_time`. -/
def applySuggest (sl : Slots) : Slots :=
  if optStrTruthy sl.date_slot && !optStrTruthy sl.time_slot && !optDTTruthy sl.datetime then
    { sl with suggested_time := some (suggest_specific_time_from_slot (sl.date_slot.getD "")) }
  else sl

/-- The combination step of `extract_datetime`: both slots present are
concatenated as `f"{date_part} {time_part}"` and resolved; success stores
`datetime` and returns (skipping the suggestion step), failure falls through
to the suggestion step (whose `time_slot` guard then fails). -/
def applyCombine (fb : String → PyDateTime → Option PyDateTime) (now : PyDateTime)
    (sl : Slots) : Slots :=
  if optStrTruthy sl.date_slot && optStrTruthy sl.time_slot then
    match parse_sales_date fb now (sl.date_slot.getD "" ++ " " ++ sl.time_slot.getD "") with
    | some dt => { sl with datetime := some dt }
    | none => applySuggest sl
  else applySuggest sl

/-- `extract_datetime(user_utterance, state)`: mutates `state.slots` only. -/
def extract_datetime (fb : String → PyDateTime → Option PyDateTime) (now : PyDateTime)
    (u : String) (st : ConversationState) : ConversationState :=
  let ul := lowerStr u
  { st with slots := applyCombine fb now (applyDateSlot ul (applyTimeSlot ul st.slots)) }

def intro_question_phrases : List String :=
  ["whos this", "who is this", "whats this", "what is this",
   "who\x27s calling", "what\x27s this about"]

def explicit_meeting_phrases : List String :=
  ["book a call", "schedule", "let\x27s talk", "let me check my calendar", "set up",
   "we could", "sounds good", "let\x27s do that", "sure let\x27s", "that works"]

def explicit_send_info_phrases : List String :=
  ["send info", "send me information", "pdf", "email", "text me"]

def asking_for_more_phrases : List String :=
  ["tell me more", "more about", "more details", "learn more", "explain more",
   "interesting"]

def explicit_scheduling_phrases : List String :=
  ["we can do the call", "yeah we can", "sounds good", "lets do it", "yes lets",
   "lets schedule"]

/-- `state.intent or "unclear"`: a falsy intent (absent or empty) becomes
`"unclear"`. -/
def planner_intent_of : Option String → String
  | some i => if i = "" then "unclear" else i
  | none => "unclear"

/-- The `intent_to_action` table of `decide_next_action`, with its
context-sensitive overrides; an intent outside the table falls back to
`"ask_for_clarification"` (the `.get` default). -/
def intent_to_action (intent : String) (info_provided is_intro_question explicit_meeting
    is_asking_for_more : Bool) (phase : String) : String :=
  if intent = "interested" then
    if !info_provided then "provide_info"
    else if explicit_meeting then "propose_meeting"
    else if is_asking_for_more then "provide_more_info"
    else "propose_meeting"
  else if intent = "busy" then "reschedule"
  else if intent = "send_info" then "ask_channel_pref"
  else if intent = "not_interested" then "graceful_exit"
  else if intent = "question" then
    if phase = "intro" && is_intro_question then "provide_info"
    else if is_asking_for_more then "provide_more_info"
    else if info_provided then "answer_question"
    else "provide_info"
  else if intent = "unclear" then
    if phase = "intro" && is_intro_question then "provide_info"
    else "ask_for_clarification"
  else "ask_for_clarification"

/-- `decide_next_action(state)`: the strict priority rules, then the intent
table.  (`explicit_send_info` is computed by the source but not read by any
routing decision, so it is omitted.) -/
def decide_next_action (st : ConversationState) : String :=
  if optDTTruthy st.slots.datetime && !optBoolTruthy st.slots.confirmation then
    "confirm_meeting"
  else if optStrTruthy st.slots.date_slot && optStrTruthy st.slots.time_slot
      && !optDTTruthy st.slots.datetime then
    "confirm_meeting"
  else if optStrTruthy st.slots.date_slot && !optStrTruthy st.slots.time_slot then
    "propose_specific_time"
  else if optStrTruthy st.slots.suggested_time && !optDTTruthy st.slots.datetime then
    "propose_specific_time"
  else
    let ul := lowerStr (st.current_user_utterance.getD "")
    intent_to_action (planner_intent_of st.intent)
      (optBoolTruthy st.slots.info_provided)
      (intro_question_phrases.any (fun p => pyIn p ul))
      (explicit_meeting_phrases.any (fun p => pyIn p ul)
        || explicit_scheduling_phrases.any (fun p => pyIn p ul))
      (asking_for_more_phrases.any (fun p => pyIn p ul))
      st.phase

/-! ### `agent/path_nodes.py` -/

def confirmation_words : List String :=
  ["yes", "confirm", "sounds good", "perfect", "ok", "okay", "that works",
   "sure", "book it"]

def rejection_words : List String :=
  ["no", "not that time", "different time", "how about", "maybe"]

def detectConfirmed (u : String) : Bool :=
  confirmation_words.any (fun w => pyIn w (lowerStr u))

def detectRejected (u : String) : Bool :=
  rejection_words.any (fun w => pyIn w (lowerStr u))

/-- Stand-in for `strftime("%A, %B %d at %I:%M %p")` (locale rendering is
outside the model; only the surrounding message text matters here). -/
def fmtMeetingTime (dt : PyDateTime) : String :=
  "day " ++ toString dt.day ++ " at " ++ toString dt.hour ++ ":" ++ toString dt.minute

def msg_confirm_created (t : String) : String :=
  "Perfect. Just to make sure I have it right, I\x27ve got you down for " ++ t ++
  ". You\x27ll receive a calendar invite shortly. Looking forward to chatting!"

def msg_confirm_failed (t : String) : String :=
  "Perfect. Just to make sure I have it right, I\x27ve got you down for " ++ t ++
  ". Calendar invite will be sent shortly. Looking forward to chatting!"

/-- The degraded wording of the `except` branch of the `confirm_meeting`
finalization. -/
def msg_confirm_exn (t : String) : String :=
  "Perfect. Just to make sure I have it right, I\x27ve got you down for " ++ t ++
  ". Looking forward to chatting!"

def msg_locked_created (t : String) : String :=
  "\n\nPerfect. I\x27ve locked in " ++ t ++ ". You\x27ll receive a calendar invite shortly!"

/-- The fallback finalize uses this same wording both when `create_event`
reports failure and when an exception is caught. -/
def msg_locked_degraded (t : String) : String :=
  "\n\nPerfect. I\x27ve locked in " ++ t ++ ". Calendar invite will be sent shortly!"

/-- The `try` block shared by both finalizations of `schedule_path_node`:
compute the end time with `start_dt.replace(hour=start_dt.hour + 1)` (this
raises for an 11 pm start, modelled by `none`, in which case the calendar is
never consulted), then invoke `calendar.create_event`.  Returns the outcome
(`none` = the end-time computation raised) and the log of calendar calls
actually issued. -/
def attemptCalendarEvent (C : Collab) (lead : Lead) (startDt : PyDateTime) :
    Option CalOutcome × List CalCall :=
  match pyReplaceHour startDt (startDt.hour + 1) with
  | none => (none, [])
  | some endDt =>
    let call : CalCall :=
      { summary := "Demo Call - " ++ lead.name
        description := "AI Sales Agent Demo Call"
        start_dt := startDt
        end_dt := endDt
        attendees :=
          match lead.email with
          | some e => [(lead.name, e)]
          | none => [] }
    (some (C.calendar call), [call])

/-- `schedule_path_node(state, user_utterance)`, instrumented with the log of
calendar calls it issues. -/
def schedule_path_nodeL (C : Collab) (now : PyDateTime) (st : ConversationState)
    (u : String) : ConversationState × List CalCall :=
  let confirmed := detectConfirmed u
  let rejected := detectRejected u
  if st.phase = "confirm_meeting" then
    match st.slots.datetime with
    | some dt =>
      if confirmed then
        let st := { st with slots := { st.slots with confirmation := some true }, done := true }
        let mt := fmtMeetingTime dt
        match attemptCalendarEvent C st.lead dt with
        | (some (.created _), log) => ({ st with last_agent_reply := some (msg_confirm_created mt) }, log)
        | (some (.failed _), log) => ({ st with last_agent_reply := some (msg_confirm_failed mt) }, log)
        | (some .raised, log) => ({ st with last_agent_reply := some (msg_confirm_exn mt) }, log)
        | (none, log) => ({ st with last_agent_reply := some (msg_confirm_exn mt) }, log)
      else (st, [])
    | none => (st, [])
  else if st.phase = "propose_specific_time" then
    if confirmed then
      match parse_sales_date C.dateparserFallback now (st.slots.suggested_time.getD "") with
      | some dt =>
        ({ st with slots := { st.slots with datetime := some dt, confirmation := some true } }, [])
      | none => (st, [])
    else if rejected then
      (extract_datetime C.dateparserFallback now u st, [])
    else (st, [])
  else
    -- pass-through phases; then the fallback finalize
    if optDTTruthy st.slots.datetime && (confirmed || optBoolTruthy st.slots.confirmation)
        && !st.done then
      match st.slots.datetime with
      | some dt =>
        let st := { st with done := true }
        let mt := fmtMeetingTime dt
        let r := attemptCalendarEvent C st.lead dt
        let msg :=
          match r.1 with
          | some (.created _) => msg_locked_created mt
          | some (.failed _) => msg_locked_degraded mt
          | some .raised => msg_locked_degraded mt
          | none => msg_locked_degraded mt
        let newReply :=
          match st.last_agent_reply with
          | some prev => if prev = "" then msg else prev ++ msg
          | none => msg
        ({ st with last_agent_reply := some newReply }, r.2)
      | none => (st, [])
    else (st, [])

def schedule_path_node (C : Collab) (now : PyDateTime) (st : ConversationState)
    (u : String) : ConversationState :=
  (schedule_path_nodeL C now st u).1

def msg_send_info (channel_name : String) : String :=
  "Perfect! I\x27ll send you a quick summary via " ++ channel_name ++
  ". After you review it, would you like to set up a quick 15-minute follow-up call " ++
  "with our team to go deeper on how this fits your needs?"

/-- `send_info_path_node`. -/
def send_info_path_node (st : ConversationState) (u : String) : ConversationState :=
  let st :=
    if st.slots.channel_pref = none then
      let ul := lowerStr u
      if pyIn "email" ul || pyIn "@" ul then
        { st with slots := { st.slots with channel_pref := some "email" } }
      else if pyIn "text" ul || pyIn "sms" ul then
        { st with slots := { st.slots with channel_pref := some "sms" } }
      else st
    else st
  if optStrTruthy st.slots.channel_pref then
    let channel_name := if st.slots.channel_pref = some "email" then "email" else "text"
    { st with
      slots := { st.slots with info_sent := some true }
      last_agent_reply := some (msg_send_info channel_name)
      phase := "propose_meeting" }
  else st

def msg_close_appended : String :=
  "\n\nThanks for your time. I\x27ll make sure we don\x27t keep pinging you. Have a great day!"

def msg_close_alone : String :=
  "Totally understood. I\x27ll make sure we don\x27t keep pinging you — thanks for the time."

/-- `not_interested_node`: unconditionally final. -/
def not_interested_node (st : ConversationState) (_u : String) : ConversationState :=
  let st := { st with done := true }
  match st.last_agent_reply with
  | some prev =>
    if prev = "" then { st with last_agent_reply := some msg_close_alone }
    else { st with last_agent_reply := some (prev ++ msg_close_appended) }
  | none => { st with last_agent_reply := some msg_close_alone }

/-- `provide_info_node`. -/
def provide_info_node (st : ConversationState) (_u : String) : ConversationState :=
  { st with slots := { st.slots with info_provided := some true } }

/-- `provide_more_info_node`. -/
def provide_more_info_node (st : ConversationState) (_u : String) : ConversationState :=
  { st with slots := { st.slots with more_info_provided := some true } }

/-- `answer_question_node`: counts questions; from the second question on,
flags a meeting suggestion for the reply generator. -/
def answer_question_node (st : ConversationState) (_u : String) : ConversationState :=
  let q := st.slots.questions_asked.getD 0
  let st := { st with slots := { st.slots with questions_asked := some (q + 1) } }
  if q ≥ 1 then
    { st with slots := { st.slots with suggest_meeting_after_answer := some true } }
  else st

/-- `close_out_node`: pass-through, never finalizes. -/
def close_out_node (st : ConversationState) : ConversationState := st

/-! ### `agent/response_node.py` — `bridge_and_nudge_node` -/

def bridge_and_nudge_node (C : Collab) (now : PyDateTime) (st : ConversationState)
    (u : String) : ConversationState :=
  let st := { st with intent := some (C.classifyIntent u).1 }
  let tn := C.detectTone u
  let st := { st with tone := some tn.1, tone_confidence := some tn.2 }
  let st := extract_datetime C.dateparserFallback now u st
  let na := decide_next_action st
  let st := { st with phase := na }
  let reply := C.genReply st u na
  let st := { st with last_agent_reply := some reply }
  let record : TurnRecord :=
    { user := u
      agent := reply
      intent := st.intent
      tone := st.tone
      tone_confidence := st.tone_confidence
      turn := st.conversation_history.length + 1
      phase := st.phase }
  { st with conversation_history := st.conversation_history ++ [record] }

/-! ### `agent/graph.py` — routing table and the per-turn pipeline -/

def schedule_phases : List String :=
  ["confirm_meeting", "propose_meeting", "reschedule", "clarify_time",
   "propose_specific_time", "ask_for_clarification"]

/-- The conditional-edge routing table of `create_sales_agent_graph`,
dispatching on `state.phase`, instrumented with the calendar-call log.
(An unknown phase would be a `langgraph` routing error; the planner only
produces keys of the table, so the identity default is unreachable on
planner outputs.) -/
def route_path_nodeL (C : Collab) (now : PyDateTime) (st : ConversationState)
    (u : String) : ConversationState × List CalCall :=
  if st.phase ∈ schedule_phases then schedule_path_nodeL C now st u
  else if st.phase = "ask_channel_pref" then (send_info_path_node st u, [])
  else if st.phase = "graceful_exit" then (not_interested_node st u, [])
  else if st.phase = "provide_info" then (provide_info_node st u, [])
  else if st.phase = "provide_more_info" then (provide_more_info_node st u, [])
  else if st.phase = "answer_question" then (answer_question_node st u, [])
  else (st, [])

/-- `run_conversation_turn(state, user_utterance)`:
set `current_user_utterance`, run `bridge_and_nudge`, route to the path node,
`close_out`, clear the utterance.  Instrumented with the calendar-call log. -/
def run_conversation_turnL (C : Collab) (now : PyDateTime) (st : ConversationState)
    (u : String) : ConversationState × List CalCall :=
  let st := { st with current_user_utterance := some u }
  let st := bridge_and_nudge_node C now st u
  let r := route_path_nodeL C now st u
  let st := close_out_node r.1
  ({ st with current_user_utterance := none }, r.2)

def run_conversation_turn (C : Collab) (now : PyDateTime) (st : ConversationState)
    (u : String) : ConversationState :=
  (run_conversation_turnL C now st u).1

/-! ### Concrete fixtures used by counterexamples and witnesses -/

def exLead : Lead := { name := "Sam", phone := "555-0100" }

/-- Reference clock: day 700 is a Monday (700 mod 7 = 0), 10:00. -/
def exNow : PyDateTime := ⟨700, 10, 0⟩

/-- Tomorrow (Tuesday) 18:00, the resolution of "tomorrow 6pm" at `exNow`. -/
def exDT : PyDateTime := ⟨701, 18, 0⟩

def exCollab : Collab :=
  { classifyIntent := fun _ => ("interested", 9/10)
    detectTone := fun _ => ("friendly", 3/5)
    genReply := fun _ _ _ => "ok"
    calendar := fun _ => .created "evt1"
    dateparserFallback := fun _ _ => none }

/-! ### Helper lemmas about the planner -/

theorem intent_to_action_ne_confirm (i : String) (a b c d : Bool) (p : String) :
    intent_to_action i a b c d p ≠ "confirm_meeting" := by
  unfold intent_to_action
  repeat' split
  all_goals decide

theorem decide_next_action_ne_confirm (st : ConversationState)
    (h1 : optBoolTruthy st.slots.confirmation = true)
    (h2 : optDTTruthy st.slots.datetime = true) :
    decide_next_action st ≠ "confirm_meeting" := by
  have e1 : (optDTTruthy st.slots.datetime && !optBoolTruthy st.slots.confirmation) = false := by
    rw [h1, h2]; rfl
  have e2 : (optStrTruthy st.slots.date_slot && optStrTruthy st.slots.time_slot
      && !optDTTruthy st.slots.datetime) = false := by
    rw [h2]; simp
  unfold decide_next_action
  rw [e1, e2]
  simp only [Bool.false_eq_true, if_false]
  split
  · decide
  split
  · decide
  exact intent_to_action_ne_confirm _ _ _ _ _ _

/-! ### Claim C1 -/

/-- Claim C1: for every `ConversationState` in which `slots["datetime"]` is
set and `slots["confirmation"]` is absent or false, `decide_next_action`
returns `"confirm_meeting"`, for every intent and every other slot content:
the priority-1 rule fires before the intent mapping. -/
theorem claim_C1 (st : ConversationState)
    (h1 : optDTTruthy st.slots.datetime = true)
    (h2 : optBoolTruthy st.slots.confirmation = false) :
    decide_next_action st = "confirm_meeting" := by
  unfold decide_next_action
  simp [h1, h2]

def exStC1 : ConversationState :=
  { lead := exLead
    intent := some "busy"
    slots := { datetime := some exDT } }

theorem claim_C1_witness :
    optDTTruthy exStC1.slots.datetime = true ∧
    optBoolTruthy exStC1.slots.confirmation = false ∧
    decide_next_action exStC1 = "confirm_meeting" :=
  ⟨rfl, rfl, claim_C1 exStC1 rfl rfl⟩

/-! ### Claim C6 -/

/-- Claim C6: with `date_slot` and `time_slot` both set but `datetime` still
unset (the resolver failed on the combined phrase) the planner fails open
into `"confirm_meeting"`.  (The priority-1 rule cannot apply here, since it
requires `datetime` to be set; and `decide_next_action` is a total Lean
function, so no exception can reach the caller.) -/
theorem claim_C6 (st : ConversationState)
    (h1 : optStrTruthy st.slots.date_slot = true)
    (h2 : optStrTruthy st.slots.time_slot = true)
    (h3 : st.slots.datetime = none) :
    decide_next_action st = "confirm_meeting" := by
  unfold decide_next_action
  rw [h3]
  simp only [optDTTruthy, h1, h2, Bool.not_false, Bool.and_self, Bool.and_true,
    Bool.false_and, Bool.and_false, if_false, if_true, Bool.true_and]
  split <;> rfl

def exStC6 : ConversationState :=
  { lead := exLead
    intent := some "interested"
    slots := { date_slot := some "next week", time_slot := some "6pm" } }

theorem claim_C6_witness :
    optStrTruthy exStC6.slots.date_slot = true ∧
    optStrTruthy exStC6.slots.time_slot = true ∧
    exStC6.slots.datetime = none ∧
    decide_next_action exStC6 = "confirm_meeting" :=
  ⟨rfl, rfl, rfl, claim_C6 exStC6 rfl rfl rfl⟩

/-! ### Claim C3 -/

/-- Claim C3: in `schedule_path` with phase `confirm_meeting`, a confirming
utterance together with a set `slots["datetime"]` finalizes the call —
`confirmation=true` and `done=true` — for EVERY behaviour of the calendar
collaborator (event created, `created=False` failure, raised exception, and
even the end-time computation raising); only the composed message differs
between those outcomes. -/
theorem claim_C3 (C : Collab) (now : PyDateTime) (st : ConversationState) (u : String)
    (dt : PyDateTime)
    (hp : st.phase = "confirm_meeting") (hc : detectConfirmed u = true)
    (hdt : st.slots.datetime = some dt) :
    (schedule_path_nodeL C now st u).1.slots.confirmation = some true ∧
    (schedule_path_nodeL C now st u).1.done = true := by
  unfold schedule_path_nodeL
  rw [hdt]
  simp only [hp, if_pos rfl, hc, if_true]
  split <;> exact ⟨rfl, rfl⟩

def exStConfirm : ConversationState :=
  { lead := exLead
    phase := "confirm_meeting"
    slots := { date_slot := some "tomorrow", time_slot := some "6pm", datetime := some exDT } }

/-- A collaborator whose calendar client reports failure, exercising the
degraded branch of the finalization. -/
def exCollabCalFail : Collab :=
  { exCollab with calendar := fun _ => .failed "service unavailable" }

theorem claim_C3_witness :
    exStConfirm.phase = "confirm_meeting" ∧
    detectConfirmed "yes that works" = true ∧
    exStConfirm.slots.datetime = some exDT ∧
    ((schedule_path_nodeL exCollabCalFail exNow exStConfirm "yes that works").1.slots.confirmation
        = some true ∧
      (schedule_path_nodeL exCollabCalFail exNow exStConfirm "yes that works").1.done = true) :=
  ⟨rfl, by decide, rfl,
    claim_C3 exCollabCalFail exNow exStConfirm "yes that works" exDT rfl (by decide) rfl⟩

/-! ### Claim C4 -/

def passthrough_phases : List String :=
  ["propose_meeting", "reschedule", "clarify_time", "ask_for_clarification"]

def exStPassthrough : ConversationState :=
  { lead := exLead
    phase := "propose_meeting"
    slots := { datetime := some exDT } }

/-- Counterexample to claim C4 as stated: in pass-through phase
`propose_meeting`, with `datetime` set, a confirming utterance this turn,
`confirmation` absent, and `done=false`, the fallback finalize sets
`done=true` and issues the calendar call but does NOT set
`slots["confirmation"]=true` — unlike the `confirm_meeting` branch. -/
theorem claim_C4_counterexample :
    exStPassthrough.phase = "propose_meeting" ∧
    exStPassthrough.slots.datetime = some exDT ∧
    detectConfirmed "yes" = true ∧
    exStPassthrough.slots.confirmation = none ∧
    exStPassthrough.done = false ∧
    (schedule_path_nodeL exCollab exNow exStPassthrough "yes").1.done = true ∧
    (schedule_path_nodeL exCollab exNow exStPassthrough "yes").2.length = 1 ∧
    (schedule_path_nodeL exCollab exNow exStPassthrough "yes").1.slots.confirmation = none ∧
    ¬ (schedule_path_nodeL exCollab exNow exStPassthrough "yes").1.slots.confirmation
        = some true := by
  refine ⟨rfl, rfl, by decide, rfl, rfl, by decide, by decide, by decide, by decide⟩

/-- Claim C4, amended: in every pass-through phase (`propose_meeting`,
`reschedule`, `clarify_time`, `ask_for_clarification`), when at node exit
`datetime` is set, the utterance confirmed this turn or `confirmation` is
already true, and `done` is false, the node sets `done=true` and attempts
the calendar call of the `confirm_meeting` branch (issuing exactly one
`create_event` unless the end-time computation fails for hour 23), but —
unlike the `confirm_meeting` branch — it leaves `slots["confirmation"]`
unchanged: it does not set `confirmation=true`. -/
theorem claim_C4_amended (C : Collab) (now : PyDateTime) (st : ConversationState) (u : String)
    (dt : PyDateTime)
    (hp : st.phase ∈ passthrough_phases) (hdt : st.slots.datetime = some dt)
    (hcf : (detectConfirmed u || optBoolTruthy st.slots.confirmation) = true)
    (hd : st.done = false) :
    (schedule_path_nodeL C now st u).1.done = true ∧
    (schedule_path_nodeL C now st u).1.slots.confirmation = st.slots.confirmation ∧
    (dt.hour + 1 ≤ 23 → (schedule_path_nodeL C now st u).2.length = 1) ∧
    (23 < dt.hour + 1 → (schedule_path_nodeL C now st u).2 = []) := by
  simp only [passthrough_phases, List.mem_cons, List.not_mem_nil, or_false] at hp
  have hne1 : ¬ st.phase = "confirm_meeting" := by
    rcases hp with h | h | h | h <;> simp [h]
  have hne2 : ¬ st.phase = "propose_specific_time" := by
    rcases hp with h | h | h | h <;> simp [h]
  unfold schedule_path_nodeL
  rw [if_neg hne1, if_neg hne2, hdt]
  simp only [optDTTruthy, Bool.true_and, hcf, hd, Bool.not_false, Bool.and_true, if_true]
  unfold attemptCalendarEvent pyReplaceHour
  by_cases h23 : dt.hour + 1 ≤ 23
  · rw [if_pos h23]
    refine ⟨trivial, trivial, fun _ => ?_, fun hlt => absurd h23 (by omega)⟩
    split <;> first | rfl | (rename_i heq; exact Option.noConfusion heq)
  · rw [if_neg h23]
    exact ⟨trivial, trivial, fun hle => absurd hle h23, fun _ => rfl⟩

theorem claim_C4_amended_witness :
    exStPassthrough.phase ∈ passthrough_phases ∧
    exStPassthrough.slots.datetime = some exDT ∧
    (detectConfirmed "yes" || optBoolTruthy exStPassthrough.slots.confirmation) = true ∧
    exStPassthrough.done = false ∧
    ((schedule_path_nodeL exCollab exNow exStPassthrough "yes").1.done = true ∧
      (schedule_path_nodeL exCollab exNow exStPassthrough "yes").1.slots.confirmation
        = exStPassthrough.slots.confirmation ∧
      (exDT.hour + 1 ≤ 23 →
        (schedule_path_nodeL exCollab exNow exStPassthrough "yes").2.length = 1) ∧
      (23 < exDT.hour + 1 →
        (schedule_path_nodeL exCollab exNow exStPassthrough "yes").2 = [])) :=
  ⟨by decide, rfl, by decide, rfl,
    claim_C4_amended exCollab exNow exStPassthrough "yes" exDT (by decide) rfl (by decide) rfl⟩

/-! ### Claim C10 -/

/-- An 11 pm resolved meeting time (Tuesday 23:00). -/
def exDT23 : PyDateTime := ⟨701, 23, 0⟩

/-- Claim C10: when the resolved datetime has hour 23, the end-time
computation `start_dt.replace(hour=start_dt.hour + 1)` fails (hour 24 is
invalid), so `calendar.create_event` is never invoked for that meeting; the
failure is caught inside the node, the degraded confirmation message is
produced, and the completion state is still set — in the `confirm_meeting`
branch `confirmation=true` and `done=true`, and in the fallback finalize of
the pass-through phases `done=true` (that branch never writes
`confirmation`, see C4). -/
theorem claim_C10 (C : Collab) (now : PyDateTime) (st : ConversationState) (u : String)
    (dt : PyDateTime)
    (hdt : st.slots.datetime = some dt) (h23 : dt.hour = 23)
    (hc : detectConfirmed u = true) :
    (st.phase = "confirm_meeting" →
      (schedule_path_nodeL C now st u).2 = [] ∧
      (schedule_path_nodeL C now st u).1.done = true ∧
      (schedule_path_nodeL C now st u).1.slots.confirmation = some true ∧
      (schedule_path_nodeL C now st u).1.last_agent_reply
        = some (msg_confirm_exn (fmtMeetingTime dt))) ∧
    (st.phase ∈ passthrough_phases → st.done = false →
      (schedule_path_nodeL C now st u).2 = [] ∧
      (schedule_path_nodeL C now st u).1.done = true) := by
  have hrep : pyReplaceHour dt (dt.hour + 1) = none := by
    unfold pyReplaceHour
    rw [if_neg (by omega)]
  constructor
  · intro hp
    unfold schedule_path_nodeL
    rw [hdt]
    simp only [hp, if_pos rfl, hc, if_true]
    unfold attemptCalendarEvent
    rw [hrep]
    exact ⟨rfl, rfl, rfl, rfl⟩
  · intro hp hd
    have h1 := claim_C4_amended C now st u dt hp hdt (by rw [hc]; rfl) hd
    exact ⟨h1.2.2.2 (by omega), h1.1⟩

def exStConfirm23 : ConversationState :=
  { lead := exLead
    phase := "confirm_meeting"
    slots := { datetime := some exDT23 } }

theorem claim_C10_witness :
    exStConfirm23.slots.datetime = some exDT23 ∧
    exDT23.hour = 23 ∧
    detectConfirmed "yes" = true ∧
    exStConfirm23.phase = "confirm_meeting" ∧
    ((schedule_path_nodeL exCollab exNow exStConfirm23 "yes").2 = [] ∧
      (schedule_path_nodeL exCollab exNow exStConfirm23 "yes").1.done = true ∧
      (schedule_path_nodeL exCollab exNow exStConfirm23 "yes").1.slots.confirmation = some true ∧
      (schedule_path_nodeL exCollab exNow exStConfirm23 "yes").1.last_agent_reply
        = some (msg_confirm_exn (fmtMeetingTime exDT23))) :=
  ⟨rfl, rfl, by decide, rfl,
    (claim_C10 exCollab exNow exStConfirm23 "yes" exDT23 rfl rfl (by decide)).1 rfl⟩

/-! ### Claim C5 -/

/-- Claim C5: for every bare weekday reference and every reference date, the
resolver (`_get_days_ahead` composed into `_parse_day_of_week`) returns the
nearest strictly future occurrence of that weekday: the offset is between 1
and 7 days, lands on the requested weekday, no smaller future offset does,
and when the reference date already falls on that weekday the result rolls a
full week ahead (never same-day).  In particular a Friday requested on a
Saturday resolves 6 days ahead — the Friday of the following calendar
week. -/
theorem claim_C5 (target : Nat) (ht : target < 7) (now : PyDateTime) :
    1 ≤ get_days_ahead target (pyWeekday now) ∧
    get_days_ahead target (pyWeekday now) ≤ 7 ∧
    pyWeekday (now.addDays (get_days_ahead target (pyWeekday now))) = target ∧
    (∀ j, 1 ≤ j → j < get_days_ahead target (pyWeekday now) →
      pyWeekday (now.addDays j) ≠ target) ∧
    (pyWeekday now = target → get_days_ahead target (pyWeekday now) = 7) ∧
    parse_day_of_week target none now =
      some ⟨now.day + get_days_ahead target (pyWeekday now), 9, 0⟩ ∧
    (pyWeekday now = 5 → target = 4 →
      get_days_ahead target (pyWeekday now) = 6 ∧
      weekIndexOf (now.addDays (get_days_ahead target (pyWeekday now)))
        = weekIndexOf now + 1) := by
  have hc : pyWeekday now < 7 := Nat.mod_lt _ (by norm_num)
  have h1 : 1 ≤ get_days_ahead target (pyWeekday now) := by
    unfold get_days_ahead
    split <;> omega
  refine ⟨h1, ?_, ?_, ?_, ?_, ?_, ?_⟩
  · unfold get_days_ahead
    split <;> omega
  · unfold get_days_ahead pyWeekday PyDateTime.addDays
    split <;> simp <;> omega
  · intro j hj1 hj2
    unfold get_days_ahead pyWeekday PyDateTime.addDays at *
    dsimp only at *
    split at hj2 <;> omega
  · intro h
    unfold get_days_ahead
    rw [h]
    split <;> omega
  · unfold parse_day_of_week specHourMinute
    dsimp only
    rw [if_neg]
    · unfold pyReplaceHM
      rw [if_pos (by omega)]
      rfl
    · unfold PyDateTime.toMinutes PyDateTime.addDays
      dsimp only
      omega
  · intro h5 h4
    have hk : get_days_ahead target (pyWeekday now) = 6 := by
      unfold get_days_ahead
      rw [h5, h4]
      decide
    rw [hk]
    refine ⟨rfl, ?_⟩
    unfold weekIndexOf PyDateTime.addDays pyWeekday at *
    dsimp only at *
    omega

/-- Day 5 of the epoch is a Saturday (5 mod 7 = 5, Monday-based). -/
def exSaturday : PyDateTime := ⟨5, 10, 0⟩

theorem claim_C5_witness :
    (4 : Nat) < 7 ∧
    pyWeekday exSaturday = 5 ∧
    get_days_ahead 4 (pyWeekday exSaturday) = 6 ∧
    pyWeekday (exSaturday.addDays (get_days_ahead 4 (pyWeekday exSaturday))) = 4 ∧
    parse_day_of_week 4 none exSaturday = some ⟨11, 9, 0⟩ ∧
    weekIndexOf (exSaturday.addDays (get_days_ahead 4 (pyWeekday exSaturday)))
      = weekIndexOf exSaturday + 1 := by
  have h := claim_C5 4 (by decide) exSaturday
  have hk : get_days_ahead 4 (pyWeekday exSaturday) = 6 := (h.2.2.2.2.2.2 rfl rfl).1
  refine ⟨by decide, rfl, hk, h.2.2.1, ?_, (h.2.2.2.2.2.2 rfl rfl).2⟩
  have hp := h.2.2.2.2.2.1
  rw [hk] at hp
  exact hp

/-! ### Claim C9 -/

theorem not_interested_done (s : ConversationState) (v : String) :
    (not_interested_node s v).done = true := by
  unfold not_interested_node
  dsimp only
  split <;> first | rfl | (split <;> rfl)

/-- Claim C9: whenever the planner selects `graceful_exit` (written into
`phase` by `bridge_and_nudge`), the routing table sends the turn to
`not_interested_path`, which unconditionally sets `done=true`; hence the
whole turn ends with `done=true`. -/
theorem claim_C9 (C : Collab) (now : PyDateTime) (st : ConversationState) (u : String) :
    (∀ s v, (not_interested_node s v).done = true) ∧
    ((bridge_and_nudge_node C now { st with current_user_utterance := some u } u).phase
        = "graceful_exit" →
      (run_conversation_turn C now st u).done = true) := by
  refine ⟨not_interested_done, fun h => ?_⟩
  unfold run_conversation_turn run_conversation_turnL close_out_node route_path_nodeL
  dsimp only
  rw [h]
  rw [if_neg (by decide), if_neg (by decide), if_pos rfl]
  exact not_interested_done _ _

def exCollabNI : Collab := { exCollab with classifyIntent := fun _ => ("not_interested", 1) }

def exStIntro : ConversationState := { lead := exLead }

theorem claim_C9_witness :
    (bridge_and_nudge_node exCollabNI exNow
        { exStIntro with current_user_utterance := some "not interested, remove me" }
        "not interested, remove me").phase = "graceful_exit" ∧
    (run_conversation_turn exCollabNI exNow exStIntro "not interested, remove me").done = true :=
  ⟨by decide,
    (claim_C9 exCollabNI exNow exStIntro "not interested, remove me").2 (by decide)⟩

def ConfImpliesDT (sl : Slots) : Prop :=
  optBoolTruthy sl.confirmation = true → optDTTruthy sl.datetime = true

theorem applyTimeSlot_confirmation (ul : String) (sl : Slots) :
    (applyTimeSlot ul sl).confirmation = sl.confirmation := by
  unfold applyTimeSlot
  split <;> rfl

theorem applyTimeSlot_datetime (ul : String) (sl : Slots) :
    (applyTimeSlot ul sl).datetime = sl.datetime := by
  unfold applyTimeSlot
  split <;> rfl

theorem applyDateSlot_confirmation (ul : String) (sl : Slots) :
    (applyDateSlot ul sl).confirmation = sl.confirmation := by
  unfold applyDateSlot
  split
  · rfl
  · split
    · rfl
    · split <;> rfl

theorem applyDateSlot_datetime (ul : String) (sl : Slots) :
    (applyDateSlot ul sl).datetime = sl.datetime := by
  unfold applyDateSlot
  split
  · rfl
  · split
    · rfl
    · split <;> rfl

theorem applySuggest_confirmation (sl : Slots) :
    (applySuggest sl).confirmation = sl.confirmation := by
  unfold applySuggest
  split <;> rfl

theorem applySuggest_datetime (sl : Slots) :
    (applySuggest sl).datetime = sl.datetime := by
  unfold applySuggest
  split <;> rfl

theorem applyCombine_confirmation (fb : String → PyDateTime → Option PyDateTime)
    (now : PyDateTime) (sl : Slots) :
    (applyCombine fb now sl).confirmation = sl.confirmation := by
  unfold applyCombine
  split
  · split
    · rfl
    · exact applySuggest_confirmation sl
  · exact applySuggest_confirmation sl

theorem applyCombine_datetime_truthy (fb : String → PyDateTime → Option PyDateTime)
    (now : PyDateTime) (sl : Slots) (h : optDTTruthy sl.datetime = true) :
    optDTTruthy (applyCombine fb now sl).datetime = true := by
  unfold applyCombine
  split
  · split
    · rfl
    · rw [applySuggest_datetime]; exact h
  · rw [applySuggest_datetime]; exact h

theorem extract_confirmation (fb : String → PyDateTime → Option PyDateTime) (now : PyDateTime)
    (u : String) (st : ConversationState) :
    (extract_datetime fb now u st).slots.confirmation = st.slots.confirmation := by
  unfold extract_datetime
  dsimp only
  rw [applyCombine_confirmation, applyDateSlot_confirmation, applyTimeSlot_confirmation]

theorem extract_datetime_truthy (fb : String → PyDateTime → Option PyDateTime) (now : PyDateTime)
    (u : String) (st : ConversationState) (h : optDTTruthy st.slots.datetime = true) :
    optDTTruthy (extract_datetime fb now u st).slots.datetime = true := by
  unfold extract_datetime
  dsimp only
  apply applyCombine_datetime_truthy
  rw [applyDateSlot_datetime, applyTimeSlot_datetime]
  exact h

theorem confdt_extract (fb : String → PyDateTime → Option PyDateTime) (now : PyDateTime)
    (u : String) (st : ConversationState) (h : ConfImpliesDT st.slots) :
    ConfImpliesDT (extract_datetime fb now u st).slots := by
  intro hc
  rw [extract_confirmation] at hc
  exact extract_datetime_truthy fb now u st (h hc)

theorem confdt_schedule (C : Collab) (now : PyDateTime) (st : ConversationState) (u : String)
    (h : ConfImpliesDT st.slots) :
    ConfImpliesDT (schedule_path_nodeL C now st u).1.slots := by
  unfold schedule_path_nodeL
  dsimp only
  split
  · -- confirm_meeting phase
    split
    · split
      · split <;> (intro _; simp_all [optDTTruthy])
      · exact h
    · exact h
  · split
    · -- propose_specific_time
      split
      · split
        · exact fun _ => rfl
        · exact h
      · split
        · exact confdt_extract _ _ _ _ h
        · exact h
    · -- fallback
      split
      · split
        · exact fun hc => h hc
        · exact h
      · exact h

theorem send_info_confirmation (st : ConversationState) (u : String) :
    (send_info_path_node st u).slots.confirmation = st.slots.confirmation := by
  unfold send_info_path_node
  dsimp only
  repeat' split
  all_goals rfl

theorem send_info_datetime (st : ConversationState) (u : String) :
    (send_info_path_node st u).slots.datetime = st.slots.datetime := by
  unfold send_info_path_node
  dsimp only
  repeat' split
  all_goals rfl

theorem confdt_send_info (st : ConversationState) (u : String) (h : ConfImpliesDT st.slots) :
    ConfImpliesDT (send_info_path_node st u).slots := by
  intro hc
  rw [send_info_confirmation] at hc
  rw [send_info_datetime]
  exact h hc

theorem confdt_bridge (C : Collab) (now : PyDateTime) (st : ConversationState) (u : String)
    (h : ConfImpliesDT st.slots) :
    ConfImpliesDT (bridge_and_nudge_node C now st u).slots := by
  unfold bridge_and_nudge_node
  dsimp only
  exact confdt_extract _ _ _ _ h

theorem confdt_route (C : Collab) (now : PyDateTime) (st : ConversationState) (u : String)
    (h : ConfImpliesDT st.slots) :
    ConfImpliesDT (route_path_nodeL C now st u).1.slots := by
  unfold route_path_nodeL
  split
  · exact confdt_schedule C now st u h
  split
  · exact confdt_send_info st u h
  split
  · unfold not_interested_node
    dsimp only
    split <;> first | exact h | (split <;> exact h)
  split
  · exact h
  split
  · exact h
  split
  · unfold answer_question_node
    dsimp only
    split <;> exact h
  · exact h

/-- Claim C7: every operation of the core preserves the invariant that a
truthy `slots["confirmation"]` implies `slots["datetime"]` is set: for every
reachable state (any state satisfying the invariant), one full turn —
`bridge_and_nudge` with slot extraction, routing, every path node, and
`close_out` — yields a state that still satisfies it, because `confirmation`
is only ever written immediately after a `datetime` exists. -/
theorem claim_C7 (C : Collab) (now : PyDateTime) (st : ConversationState) (u : String)
    (h : ConfImpliesDT st.slots) :
    ConfImpliesDT (run_conversation_turn C now st u).slots := by
  unfold run_conversation_turn run_conversation_turnL close_out_node
  dsimp only
  exact confdt_route _ _ _ _ (confdt_bridge _ _ _ _ h)

def exStConfirmed : ConversationState :=
  { lead := exLead
    phase := "propose_meeting"
    slots := { date_slot := some "tomorrow", time_slot := some "6pm",
               datetime := some exDT, confirmation := some true } }

theorem claim_C7_witness :
    ConfImpliesDT exStConfirmed.slots ∧
    ConfImpliesDT (run_conversation_turn exCollab exNow exStConfirmed "ok").slots :=
  ⟨fun _ => rfl, claim_C7 exCollab exNow exStConfirmed "ok" (fun _ => rfl)⟩

theorem bridge_done (C : Collab) (now : PyDateTime) (st : ConversationState) (u : String) :
    (bridge_and_nudge_node C now st u).done = st.done := rfl

theorem bridge_history_len (C : Collab) (now : PyDateTime) (st : ConversationState) (u : String) :
    (bridge_and_nudge_node C now st u).conversation_history.length
      = st.conversation_history.length + 1 := by
  unfold bridge_and_nudge_node extract_datetime
  dsimp only
  simp

theorem bridge_confirmation (C : Collab) (now : PyDateTime) (st : ConversationState) (u : String) :
    (bridge_and_nudge_node C now st u).slots.confirmation = st.slots.confirmation := by
  unfold bridge_and_nudge_node
  dsimp only
  rw [extract_confirmation]

theorem bridge_datetime_truthy (C : Collab) (now : PyDateTime) (st : ConversationState)
    (u : String) (h : optDTTruthy st.slots.datetime = true) :
    optDTTruthy (bridge_and_nudge_node C now st u).slots.datetime = true := by
  unfold bridge_and_nudge_node
  dsimp only
  exact extract_datetime_truthy _ _ _ _ h

theorem bridge_phase_ne_confirm (C : Collab) (now : PyDateTime) (st : ConversationState)
    (u : String) (h1 : optBoolTruthy st.slots.confirmation = true)
    (h2 : optDTTruthy st.slots.datetime = true) :
    (bridge_and_nudge_node C now st u).phase ≠ "confirm_meeting" := by
  unfold bridge_and_nudge_node
  dsimp only
  apply decide_next_action_ne_confirm
  · rw [extract_confirmation]; exact h1
  · exact extract_datetime_truthy _ _ _ _ h2

theorem extract_done (fb : String → PyDateTime → Option PyDateTime) (now : PyDateTime)
    (u : String) (st : ConversationState) :
    (extract_datetime fb now u st).done = st.done := rfl

theorem extract_history (fb : String → PyDateTime → Option PyDateTime) (now : PyDateTime)
    (u : String) (st : ConversationState) :
    (extract_datetime fb now u st).conversation_history = st.conversation_history := rfl

theorem send_info_done (st : ConversationState) (u : String) :
    (send_info_path_node st u).done = st.done := by
  unfold send_info_path_node
  dsimp only
  repeat' split
  all_goals rfl

theorem send_info_history (st : ConversationState) (u : String) :
    (send_info_path_node st u).conversation_history = st.conversation_history := by
  unfold send_info_path_node
  dsimp only
  repeat' split
  all_goals rfl

theorem not_interested_history (st : ConversationState) (u : String) :
    (not_interested_node st u).conversation_history = st.conversation_history := by
  unfold not_interested_node
  dsimp only
  split <;> first | rfl | (split <;> rfl)

theorem answer_question_done (st : ConversationState) (u : String) :
    (answer_question_node st u).done = st.done := by
  unfold answer_question_node
  dsimp only
  split <;> rfl

theorem answer_question_history (st : ConversationState) (u : String) :
    (answer_question_node st u).conversation_history = st.conversation_history := by
  unfold answer_question_node
  dsimp only
  split <;> rfl

theorem schedule_done_turn (C : Collab) (now : PyDateTime) (st : ConversationState) (u : String)
    (hd : st.done = true) (hp : st.phase ≠ "confirm_meeting") :
    (schedule_path_nodeL C now st u).1.done = true ∧
    (schedule_path_nodeL C now st u).2 = [] ∧
    (schedule_path_nodeL C now st u).1.conversation_history = st.conversation_history := by
  unfold schedule_path_nodeL
  dsimp only
  rw [if_neg hp]
  split
  · -- propose_specific_time
    split
    · split
      · exact ⟨hd, rfl, rfl⟩
      · exact ⟨hd, rfl, rfl⟩
    · split
      · exact ⟨hd, rfl, rfl⟩
      · exact ⟨hd, rfl, rfl⟩
  · -- fallback: guard contains !st.done
    split
    · rename_i hcond
      rw [hd] at hcond
      simp at hcond
    · exact ⟨hd, rfl, rfl⟩

theorem route_done_turn (C : Collab) (now : PyDateTime) (st : ConversationState) (u : String)
    (hd : st.done = true) (hp : st.phase ≠ "confirm_meeting") :
    (route_path_nodeL C now st u).1.done = true ∧
    (route_path_nodeL C now st u).2 = [] ∧
    (route_path_nodeL C now st u).1.conversation_history = st.conversation_history := by
  unfold route_path_nodeL
  split
  · exact schedule_done_turn C now st u hd hp
  split
  · exact ⟨by rw [send_info_done]; exact hd, rfl, send_info_history st u⟩
  split
  · exact ⟨not_interested_done st u, rfl, not_interested_history st u⟩
  split
  · exact ⟨hd, rfl, rfl⟩
  split
  · exact ⟨hd, rfl, rfl⟩
  split
  · exact ⟨by rw [answer_question_done]; exact hd, rfl, answer_question_history st u⟩
  · exact ⟨hd, rfl, rfl⟩


/-! ### Claim C2 -/

/-- A finished session: a meeting was confirmed and booked (`done=true`,
`confirmation=true`, resolved `datetime`), with no history records yet for
ease of counting. -/
def exStDone : ConversationState :=
  { lead := exLead
    phase := "confirm_meeting"
    intent := some "interested"
    done := true
    last_agent_reply := some "Perfect."
    slots := { date_slot := some "tomorrow", time_slot := some "6pm",
               datetime := some exDT, confirmation := some true } }

/-- Counterexample to claim C2 as stated: on a session with `done=true`, one
more turn with the confirmation utterance `"yes"` does NOT leave the state
unchanged — `bridge_and_nudge` unconditionally appends a record to
`conversation_history`, and the routed path node can still write auxiliary
slots (here `provide_info_path` writes `info_provided=True`), so the
resulting state differs from the input state in both `conversation_history`
and `slots`. -/
theorem claim_C2_counterexample :
    exStDone.done = true ∧
    (run_conversation_turn exCollab exNow exStDone "yes").conversation_history.length = 1 ∧
    exStDone.conversation_history.length = 0 ∧
    exStDone.slots.info_provided = none ∧
    (run_conversation_turn exCollab exNow exStDone "yes").slots.info_provided = some true ∧
    run_conversation_turn exCollab exNow exStDone "yes" ≠ exStDone :=
  ⟨rfl, by decide, rfl, rfl, by decide, fun h => by
    have hlen := congrArg (fun s => s.conversation_history.length) h
    simp only at hlen
    exact absurd hlen (by decide)⟩

theorem not_interested_slots (st : ConversationState) (u : String) :
    (not_interested_node st u).slots = st.slots := by
  unfold not_interested_node
  dsimp only
  split <;> first | rfl | (split <;> rfl)

theorem answer_question_confirmation (st : ConversationState) (u : String) :
    (answer_question_node st u).slots.confirmation = st.slots.confirmation := by
  unfold answer_question_node
  dsimp only
  split <;> rfl

theorem answer_question_datetime (st : ConversationState) (u : String) :
    (answer_question_node st u).slots.datetime = st.slots.datetime := by
  unfold answer_question_node
  dsimp only
  split <;> rfl

/-- With `confirmation` already true, `schedule_path_node` outside the
`confirm_meeting` phase can only rewrite `confirmation` to the same `True`
(the `propose_specific_time` branch), never clear it. -/
theorem schedule_conf_true (C : Collab) (now : PyDateTime) (st : ConversationState) (u : String)
    (hp : st.phase ≠ "confirm_meeting") (hc : st.slots.confirmation = some true) :
    (schedule_path_nodeL C now st u).1.slots.confirmation = some true := by
  unfold schedule_path_nodeL
  dsimp only
  rw [if_neg hp]
  split
  · -- propose_specific_time
    split
    · split
      · rfl
      · exact hc
    · split
      · rw [extract_confirmation]; exact hc
      · exact hc
  · -- fallback: slots unchanged in every branch
    split
    · split <;> exact hc
    · exact hc

/-- `schedule_path_node` outside the `confirm_meeting` phase never clears a
set `datetime` (it only overwrites it with another resolved value). -/
theorem schedule_dt_truthy (C : Collab) (now : PyDateTime) (st : ConversationState) (u : String)
    (hp : st.phase ≠ "confirm_meeting") (hdt : optDTTruthy st.slots.datetime = true) :
    optDTTruthy (schedule_path_nodeL C now st u).1.slots.datetime = true := by
  unfold schedule_path_nodeL
  dsimp only
  rw [if_neg hp]
  split
  · split
    · split
      · rfl
      · exact hdt
    · split
      · exact extract_datetime_truthy _ _ _ _ hdt
      · exact hdt
  · split
    · split <;> exact hdt
    · exact hdt

/-- No path node of the routing table can clear `confirmation=True` or a set
`datetime`, as long as the `confirm_meeting` branch is not taken. -/
theorem route_conf_dt (C : Collab) (now : PyDateTime) (st : ConversationState) (u : String)
    (hp : st.phase ≠ "confirm_meeting")
    (hc : st.slots.confirmation = some true)
    (hdt : optDTTruthy st.slots.datetime = true) :
    (route_path_nodeL C now st u).1.slots.confirmation = some true ∧
    optDTTruthy (route_path_nodeL C now st u).1.slots.datetime = true := by
  unfold route_path_nodeL
  split
  · exact ⟨schedule_conf_true C now st u hp hc, schedule_dt_truthy C now st u hp hdt⟩
  split
  · exact ⟨by rw [send_info_confirmation]; exact hc, by rw [send_info_datetime]; exact hdt⟩
  split
  · rw [not_interested_slots]
    exact ⟨hc, hdt⟩
  split
  · exact ⟨hc, hdt⟩
  split
  · exact ⟨hc, hdt⟩
  split
  · exact ⟨by rw [answer_question_confirmation]; exact hc,
      by rw [answer_question_datetime]; exact hdt⟩
  · exact ⟨hc, hdt⟩

/-- Claim C2, amended: once `done=true` with the booked meeting's
`confirmation=true` and `datetime` set, a repeated identical confirmation
turn leaves the completion state intact — `done` remains true,
`slots["confirmation"]` remains true, a resolved `datetime` remains present,
and no calendar call is issued — but the state is NOT unchanged: the turn
always appends exactly one record to `conversation_history` (and the routed
node may still write auxiliary slots such as `info_provided`, as the
counterexample shows). -/
theorem claim_C2_amended (C : Collab) (now : PyDateTime) (st : ConversationState) (u : String)
    (hd : st.done = true)
    (hc : st.slots.confirmation = some true)
    (hdt : optDTTruthy st.slots.datetime = true) :
    (run_conversation_turn C now st u).done = true ∧
    (run_conversation_turn C now st u).slots.confirmation = some true ∧
    optDTTruthy (run_conversation_turn C now st u).slots.datetime = true ∧
    (run_conversation_turnL C now st u).2 = [] ∧
    (run_conversation_turn C now st u).conversation_history.length
      = st.conversation_history.length + 1 := by
  have hct : optBoolTruthy st.slots.confirmation = true := by rw [hc]; rfl
  have hB_done : (bridge_and_nudge_node C now { st with current_user_utterance := some u } u).done
      = true := by
    rw [bridge_done]; exact hd
  have hB_phase := bridge_phase_ne_confirm C now { st with current_user_utterance := some u } u
    hct hdt
  have hB_conf : (bridge_and_nudge_node C now
      { st with current_user_utterance := some u } u).slots.confirmation = some true := by
    rw [bridge_confirmation]; exact hc
  have hB_dt := bridge_datetime_truthy C now { st with current_user_utterance := some u } u hdt
  have hroute := route_done_turn C now
    (bridge_and_nudge_node C now { st with current_user_utterance := some u } u) u hB_done hB_phase
  have hslots := route_conf_dt C now
    (bridge_and_nudge_node C now { st with current_user_utterance := some u } u) u
    hB_phase hB_conf hB_dt
  have hlen := bridge_history_len C now { st with current_user_utterance := some u } u
  unfold run_conversation_turn run_conversation_turnL close_out_node
  dsimp only
  refine ⟨hroute.1, hslots.1, hslots.2, hroute.2.1, ?_⟩
  rw [hroute.2.2]
  exact hlen

theorem claim_C2_amended_witness :
    exStDone.done = true ∧
    exStDone.slots.confirmation = some true ∧
    optDTTruthy exStDone.slots.datetime = true ∧
    ((run_conversation_turn exCollab exNow exStDone "yes").done = true ∧
      (run_conversation_turn exCollab exNow exStDone "yes").slots.confirmation = some true ∧
      optDTTruthy (run_conversation_turn exCollab exNow exStDone "yes").slots.datetime = true ∧
      (run_conversation_turnL exCollab exNow exStDone "yes").2 = [] ∧
      (run_conversation_turn exCollab exNow exStDone "yes").conversation_history.length
        = exStDone.conversation_history.length + 1) :=
  ⟨rfl, rfl, rfl, claim_C2_amended exCollab exNow exStDone "yes" rfl rfl rfl⟩

theorem applySuggest_date_slot (sl : Slots) : (applySuggest sl).date_slot = sl.date_slot := by
  unfold applySuggest
  split <;> rfl

theorem applySuggest_time_slot (sl : Slots) : (applySuggest sl).time_slot = sl.time_slot := by
  unfold applySuggest
  split <;> rfl

theorem applyTimeSlot_time_slot (ul : String) (sl : Slots) :
    (applyTimeSlot ul sl).time_slot =
      match findTimeTok ul with
      | some t => some t
      | none => sl.time_slot := by
  unfold applyTimeSlot
  cases h : findTimeTok ul <;> rfl

theorem applyTimeSlot_date_slot (ul : String) (sl : Slots) :
    (applyTimeSlot ul sl).date_slot = sl.date_slot := by
  unfold applyTimeSlot
  split <;> rfl

theorem applyDateSlot_time_slot (ul : String) (sl : Slots) :
    (applyDateSlot ul sl).time_slot = sl.time_slot := by
  unfold applyDateSlot
  split
  · rfl
  · split
    · rfl
    · split <;> rfl

theorem applyDateSlot_date_slot (ul : String) (sl : Slots) :
    (applyDateSlot ul sl).date_slot =
      match core_date_keywords.find? (fun k => pyIn k ul) with
      | some k => some k
      | none =>
        if pyIn "next week" ul then some "next week"
        else if pyIn "this week" ul then some "this week"
        else sl.date_slot := by
  unfold applyDateSlot
  cases h : core_date_keywords.find? (fun k => pyIn k ul)
  · dsimp only
    split
    · rfl
    · split <;> rfl
  · rfl

theorem applyCombine_date_slot (fb : String → PyDateTime → Option PyDateTime)
    (now : PyDateTime) (sl : Slots) :
    (applyCombine fb now sl).date_slot = sl.date_slot := by
  unfold applyCombine
  split
  · split
    · rfl
    · exact applySuggest_date_slot sl
  · exact applySuggest_date_slot sl

theorem applyCombine_time_slot (fb : String → PyDateTime → Option PyDateTime)
    (now : PyDateTime) (sl : Slots) :
    (applyCombine fb now sl).time_slot = sl.time_slot := by
  unfold applyCombine
  split
  · split
    · rfl
    · exact applySuggest_time_slot sl
  · exact applySuggest_time_slot sl

theorem applyCombine_datetime_eq (fb : String → PyDateTime → Option PyDateTime)
    (now : PyDateTime) (sl : Slots) :
    (applyCombine fb now sl).datetime =
      if (optStrTruthy sl.date_slot && optStrTruthy sl.time_slot) = true then
        match parse_sales_date fb now (sl.date_slot.getD "" ++ " " ++ sl.time_slot.getD "") with
        | some v => some v
        | none => sl.datetime
      else sl.datetime := by
  unfold applyCombine
  split
  · split <;> first | rfl | exact applySuggest_datetime sl
  · exact applySuggest_datetime sl

theorem combine_pipeline_datetime_idem (fb : String → PyDateTime → Option PyDateTime)
    (now : PyDateTime) (ul : String) (sl : Slots) :
    (applyCombine fb now (applyDateSlot ul (applyTimeSlot ul
        (applyCombine fb now (applyDateSlot ul (applyTimeSlot ul sl)))))).datetime
      = (applyCombine fb now (applyDateSlot ul (applyTimeSlot ul sl))).datetime := by
  set sl2 := applyDateSlot ul (applyTimeSlot ul sl) with hsl2
  set s1 := applyCombine fb now sl2 with hs1
  have hs1_time : s1.time_slot = sl2.time_slot := applyCombine_time_slot fb now sl2
  have hs1_date : s1.date_slot = sl2.date_slot := applyCombine_date_slot fb now sl2
  have hsl2_time : sl2.time_slot =
      match findTimeTok ul with
      | some t => some t
      | none => sl.time_slot := by
    rw [hsl2, applyDateSlot_time_slot, applyTimeSlot_time_slot]
  have hsl2_date : sl2.date_slot =
      match core_date_keywords.find? (fun k => pyIn k ul) with
      | some k => some k
      | none =>
        if pyIn "next week" ul then some "next week"
        else if pyIn "this week" ul then some "this week"
        else sl.date_slot := by
    rw [hsl2, applyDateSlot_date_slot, applyTimeSlot_date_slot]
  have htime2 : (applyDateSlot ul (applyTimeSlot ul s1)).time_slot = sl2.time_slot := by
    rw [applyDateSlot_time_slot, applyTimeSlot_time_slot]
    cases h : findTimeTok ul
    · exact hs1_time
    · rw [hsl2_time, h]
  have hdate2 : (applyDateSlot ul (applyTimeSlot ul s1)).date_slot = sl2.date_slot := by
    rw [applyDateSlot_date_slot, applyTimeSlot_date_slot]
    cases h : core_date_keywords.find? (fun k => pyIn k ul)
    · rw [hsl2_date, h]
      dsimp only
      split
      · rfl
      · split
        · rfl
        · rw [hs1_date, hsl2_date, h]
          dsimp only
          rename_i hnw htw
          rw [if_neg hnw, if_neg htw]
    · rw [hsl2_date, h]
  have hdt2 : (applyDateSlot ul (applyTimeSlot ul s1)).datetime = s1.datetime := by
    rw [applyDateSlot_datetime, applyTimeSlot_datetime]
  rw [applyCombine_datetime_eq, htime2, hdate2, hdt2]
  by_cases hcond : (optStrTruthy sl2.date_slot && optStrTruthy sl2.time_slot) = true
  · rw [if_pos hcond]
    have h1 : s1.datetime =
        match parse_sales_date fb now (sl2.date_slot.getD "" ++ " " ++ sl2.time_slot.getD "") with
        | some v => some v
        | none => sl2.datetime := by
      rw [hs1, applyCombine_datetime_eq, if_pos hcond]
    cases hp : parse_sales_date fb now (sl2.date_slot.getD "" ++ " " ++ sl2.time_slot.getD "")
    · dsimp only
    · dsimp only
      rw [h1, hp]
  · rw [if_neg hcond]


/-! ### Claim C8 -/

/-- The reduction of `extract_datetime` on an utterance contributing no time
token and no date keyword: only the combination (and suggestion) step acts
on the stored slots. -/
theorem extract_empty_utterance (fb : String → PyDateTime → Option PyDateTime)
    (now : PyDateTime) (st : ConversationState) :
    (extract_datetime fb now "" st).slots = applyCombine fb now st.slots := rfl

/-- Slots as stored after "tomorrow" and "6pm" arrived (possibly on
different turns). -/
def exStT6 : ConversationState :=
  { lead := exLead
    slots := { date_slot := some "tomorrow", time_slot := some "6pm" } }

def exFb : String → PyDateTime → Option PyDateTime := fun _ _ => none

/-- Claim C8: (1) whenever both slots are stored, the extractor's
combination step resolves exactly the concatenated phrase
`"<date_slot> <time_slot>"` in one step and stores that result as
`datetime`; (2) in particular `"tomorrow 6pm"` resolves (through the
`tomorrow` pattern, for every `dateparser` fallback oracle) to the next day
at 18:00; (3) so combining `date_slot="tomorrow"` with `time_slot="6pm"`
yields the same absolute datetime as resolving `"tomorrow 6pm"` directly;
and (4) re-running the extraction (same utterance, same slot values, same
reference time) yields the same `datetime` — the combination is
idempotent. -/
theorem claim_C8 :
    (∀ (fb : String → PyDateTime → Option PyDateTime) (now : PyDateTime)
       (st : ConversationState) (d t : String),
       st.slots.date_slot = some d → st.slots.time_slot = some t → d ≠ "" → t ≠ "" →
       ∀ v, parse_sales_date fb now (d ++ " " ++ t) = some v →
         (extract_datetime fb now "" st).slots.datetime = some v) ∧
    (∀ fb, parse_sales_date fb exNow "tomorrow 6pm" = some exDT) ∧
    (∀ fb, (extract_datetime fb exNow "" exStT6).slots.datetime
        = parse_sales_date fb exNow "tomorrow 6pm") ∧
    (∀ (fb : String → PyDateTime → Option PyDateTime) (now : PyDateTime) (u : String)
       (st : ConversationState),
       (extract_datetime fb now u (extract_datetime fb now u st)).slots.datetime
         = (extract_datetime fb now u st).slots.datetime) := by
  refine ⟨?_, fun _ => rfl, fun _ => rfl, ?_⟩
  · intro fb now st d t h1 h2 hd ht v hp
    rw [extract_empty_utterance, applyCombine_datetime_eq, h1, h2]
    rw [if_pos]
    · dsimp only [Option.getD]
      rw [hp]
    · simp [optStrTruthy, hd, ht]
  · intro fb now u st
    exact combine_pipeline_datetime_idem fb now (lowerStr u) st.slots

theorem claim_C8_witness :
    exStT6.slots.date_slot = some "tomorrow" ∧
    exStT6.slots.time_slot = some "6pm" ∧
    parse_sales_date exFb exNow ("tomorrow" ++ " " ++ "6pm") = some exDT ∧
    (extract_datetime exFb exNow "" exStT6).slots.datetime = some exDT ∧
    (extract_datetime exFb exNow "" (extract_datetime exFb exNow "" exStT6)).slots.datetime
      = (extract_datetime exFb exNow "" exStT6).slots.datetime :=
  ⟨rfl, rfl, claim_C8.2.1 exFb,
    claim_C8.1 exFb exNow exStT6 "tomorrow" "6pm" rfl rfl (by decide) (by decide) exDT
      (claim_C8.2.1 exFb),
    claim_C8.2.2.2 exFb exNow "" exStT6⟩
